import Mathlib

/-!
Shallow embedding of `src/update-task-dns.js` (an AWS Lambda handler that
upserts a Route 53 A-record for an ECS task that just started).

Modelling conventions:
* A JS value that may be `undefined` is an `Option`; reading a property of
  `undefined` throws, which we model as `JsErr.typeError`.
* Every AWS SDK call goes through an `Env` of response functions; a rejected
  promise is `Except.error msg`.  A fulfilled AWS request always resolves to
  an object, so the `if (!data)` guards of lines 103 and 129 can never fire
  and are not modelled.
* Each remote call is recorded, in invocation order, in a trace of
  `CallEvent`s; a function returns its trace next to its JS outcome.
* lodash collection operations treat `undefined` collections as empty, so a
  possibly-absent array that is only consumed by lodash is a plain `List`.
* `console.log` lines are not modelled, except that under `'use strict'` the
  log templates of lines 130 and 136 read the undeclared variables `instance`
  and `cluster` and hence throw, which we model as `JsErr.referenceError`.
-/

namespace UpdateTaskDns

/-- JS runtime outcome of the handler: an AWS SDK call rejected (`api`), a
property of `undefined` was read or split was called on `undefined`
(`typeError`), or a strict-mode read of an undeclared variable happened
(`referenceError`). -/
inductive JsErr where
  | api (msg : String)
  | typeError
  | referenceError
  deriving DecidableEq, Repr

/-- JS truthiness of a string-or-undefined value: `undefined` and `""` are
falsy.  `jsT o = some s` exactly when `o` holds a truthy string `s`. -/
def jsT (o : Option String) : Option String :=
  o.bind (fun s => if s.isEmpty then none else some s)

/-- JS template-literal rendering of a string-or-undefined value. -/
def jsStr (o : Option String) : String :=
  o.getD "undefined"

/-- JS property access whose base may be `undefined`: reading a property of
`undefined` throws a TypeError. -/
def jsGet {α : Type} (o : Option α) : Except JsErr α :=
  match o with
  | none => Except.error JsErr.typeError
  | some a => Except.ok a

/-- One tag of an `ecs.listTagsForResource` response. -/
structure Tag where
  key : String
  value : String
  deriving DecidableEq, Repr

/-- Response of `ecs.listTagsForResource`; the `tags` array may be absent. -/
structure TagsResponse where
  tags : Option (List Tag)
  deriving DecidableEq, Repr

/-- One entry of an attachment's `details` array; its `value` may be absent. -/
structure AttachmentDetail where
  name : String
  value : Option String
  deriving DecidableEq, Repr

/-- One entry of the task's `attachments` array. -/
structure Attachment where
  type : String
  details : List AttachmentDetail
  deriving DecidableEq, Repr

/-- The `event.detail` object the handler destructures (lines 17-19, 36-37,
57).  Arrays consumed only by lodash are plain lists (absent = empty). -/
structure TaskDetail where
  clusterArn : Option String
  taskArn : Option String
  attachments : List Attachment
  containerInstanceArn : Option String
  group : Option String
  deriving DecidableEq, Repr

/-- `Association` object of a private IP address of a network interface. -/
structure EniAssociation where
  publicIp : Option String
  deriving DecidableEq, Repr

/-- One entry of `PrivateIpAddresses` of a network interface. -/
structure EniPrivateIpAddress where
  association : Option EniAssociation
  deriving DecidableEq, Repr

/-- One entry of `NetworkInterfaces` of a `describeNetworkInterfaces`
response. -/
structure NetworkInterface where
  privateIpAddresses : Option (List EniPrivateIpAddress)
  deriving DecidableEq, Repr

/-- Response of `ec2.describeNetworkInterfaces`. -/
structure EniResponse where
  networkInterfaces : Option (List NetworkInterface)
  deriving DecidableEq, Repr

/-- One entry of `containerInstances` of a `describeContainerInstances`
response. -/
structure ContainerInstance where
  ec2InstanceId : Option String
  deriving DecidableEq, Repr

/-- Response of `ecs.describeContainerInstances`. -/
structure DciResponse where
  containerInstances : Option (List ContainerInstance)
  deriving DecidableEq, Repr

/-- Parameter object built at lines 46-49 for
`ecs.describeContainerInstances`. -/
structure DciParams where
  containerInstances : List String
  cluster : String
  deriving DecidableEq, Repr

/-- One entry of `Instances` of a reservation. -/
structure Ec2Instance where
  publicIpAddress : Option String
  deriving DecidableEq, Repr

/-- One entry of `Reservations` of a `describeInstances` response. -/
structure Reservation where
  instances : Option (List Ec2Instance)
  deriving DecidableEq, Repr

/-- Response of `ec2.describeInstances`. -/
structure DiResponse where
  reservations : Option (List Reservation)
  deriving DecidableEq, Repr

/-- One element of `ResourceRecords` (line 156-160); the code writes the
possibly-undefined `taskPublicIp` into `Value`. -/
structure ResourceRecord where
  value : Option String
  deriving DecidableEq, Repr

/-- The `ResourceRecordSet` object of lines 152-161. -/
structure ResourceRecordSet where
  name : String
  type : String
  ttl : Nat
  resourceRecords : List ResourceRecord
  deriving DecidableEq, Repr

/-- The change object of lines 150-162 (`Action` + `ResourceRecordSet`). -/
structure RecordChange where
  action : String
  resourceRecordSet : ResourceRecordSet
  deriving DecidableEq, Repr

/-- The `ChangeBatch` object of lines 167-170. -/
structure ChangeBatch where
  comment : String
  changes : List RecordChange
  deriving DecidableEq, Repr

/-- The full parameter of `route53.changeResourceRecordSets` (lines 166-172). -/
structure ChangeParams where
  changeBatch : ChangeBatch
  hostedZoneId : String
  deriving DecidableEq, Repr

/-- One remote AWS call, recorded in invocation order. -/
inductive CallEvent where
  | listTags (resourceArn : Option String)
  | descNetworkInterfaces (eniId : String)
  | descContainerInstances (params : DciParams)
  | descInstances (instanceId : String)
  | changeRRS (params : ChangeParams)
  deriving DecidableEq, Repr

/-- The remote world: each AWS SDK call either rejects with an error message
or resolves with a response object. -/
structure Env where
  listTagsForResource : Option String → Except String TagsResponse
  describeNetworkInterfaces : String → Except String EniResponse
  describeContainerInstances : DciParams → Except String DciResponse
  describeInstances : String → Except String DiResponse
  changeResourceRecordSets : ChangeParams → Except String Unit

/-- Lines 71-75: lodash `_.reduce` of the tag list into a hash, assigning
`hash[tag.key] = tag.value` left to right (so a later duplicate key wins).
The hash is modelled extensionally as a lookup function. -/
def tagsToMap (tags : List Tag) : String → Option String :=
  tags.foldl (fun hash tag => fun k => if k == tag.key then some tag.value else hash k)
    (fun _ => none)

/-- Lines 67-76: issue `ecs.listTagsForResource` and fold the response's tag
array into a map; an absent array folds like the empty one (lodash `_.reduce`
of `undefined`). -/
def fetchTags (env : Env) (arn : Option String) :
    List CallEvent × Except JsErr (String → Option String) :=
  match env.listTagsForResource arn with
  | Except.error e => ([CallEvent.listTags arn], Except.error (JsErr.api e))
  | Except.ok response =>
      ([CallEvent.listTags arn], Except.ok (tagsToMap (response.tags.getD [])))

/-- Inner chain of lines 84-92: first `networkInterfaceId` detail's value of
one attachment (`undefined` when there is none, or when its value is absent —
both are the same JS `undefined`, hence the `join`). -/
def eniIdOfAttachment (a : Attachment) : Option String :=
  ((a.details.filter (fun d => d.name == "networkInterfaceId")).map
      AttachmentDetail.value).head?.join

/-- Lines 78-96: lodash chain `filter type == eni` / `map inner` / `head`.
The outer `head` takes the inner result of the FIRST eni attachment, whether
or not that inner result is `undefined`. -/
def getEniId (task : TaskDetail) : Option String :=
  ((task.attachments.filter (fun a => a.type == "eni")).map
      eniIdOfAttachment).head?.join

/-- Line 108: `data.Reservations[0].Instances[0].PublicIpAddress` (each step
on an absent object throws; an absent final `PublicIpAddress` is the returned
`undefined`). -/
def ec2Nav (data : DiResponse) : Except JsErr (Option String) := do
  let reservations ← jsGet data.reservations
  let r ← jsGet reservations.head?
  let instances ← jsGet r.instances
  let i ← jsGet instances.head?
  Except.ok i.publicIpAddress

/-- Lines 98-111: `ec2.describeInstances`, then the navigation of line 108. -/
def fetchEC2PublicIp (env : Env) (instanceId : String) :
    List CallEvent × Except JsErr (Option String) :=
  let t := [CallEvent.descInstances instanceId]
  match env.describeInstances instanceId with
  | Except.error e => (t, Except.error (JsErr.api e))
  | Except.ok data => (t, ec2Nav data)

/-- Line 119:
`data.NetworkInterfaces[0].PrivateIpAddresses[0].Association.PublicIp`. -/
def eniNav (data : EniResponse) : Except JsErr (Option String) := do
  let nis ← jsGet data.networkInterfaces
  let ni ← jsGet nis.head?
  let pias ← jsGet ni.privateIpAddresses
  let pia ← jsGet pias.head?
  let assoc ← jsGet pia.association
  Except.ok assoc.publicIp

/-- Lines 113-120: `ec2.describeNetworkInterfaces`, then the navigation of
line 119. -/
def fetchEniPublicIp (env : Env) (eniId : String) :
    List CallEvent × Except JsErr (Option String) :=
  let t := [CallEvent.descNetworkInterfaces eniId]
  match env.describeNetworkInterfaces eniId with
  | Except.error e => (t, Except.error (JsErr.api e))
  | Except.ok data => (t, eniNav data)

/-- Line 133: `data.containerInstances[0].ec2InstanceId`. -/
def dciNav (data : DciResponse) : Except JsErr (Option String) := do
  let cis ← jsGet data.containerInstances
  let ci ← jsGet cis.head?
  Except.ok ci.ec2InstanceId

/-- Lines 122-147: `ecs.describeContainerInstances`, extract
`containerInstances[0].ec2InstanceId`, then `fetchEC2PublicIp`.  When
`ec2InstanceId` is falsy, the log template of line 136 reads the undeclared
variables `instance` and `cluster`, so under `'use strict'` the function
throws a ReferenceError instead of returning.  When the final public IP is
falsy the guard of lines 140-143 returns `undefined`. -/
def fetchContainerPublicIp (env : Env) (params : DciParams) :
    List CallEvent × Except JsErr (Option String) :=
  let t := [CallEvent.descContainerInstances params]
  match env.describeContainerInstances params with
  | Except.error e => (t, Except.error (JsErr.api e))
  | Except.ok data =>
      match dciNav data with
      | Except.error e => (t, Except.error e)
      | Except.ok ec2Id =>
          match jsT ec2Id with
          | none => (t, Except.error JsErr.referenceError)
          | some i =>
              let r := fetchEC2PublicIp env i
              match r.2 with
              | Except.error e => (t ++ r.1, Except.error e)
              | Except.ok publicIp => (t ++ r.1, Except.ok (jsT publicIp))

/-- Lines 149-163: the upsert change object. -/
def createRecordSet (domain : String) (publicIp : Option String) : RecordChange :=
  { action := "UPSERT",
    resourceRecordSet :=
      { name := domain
        type := "A"
        ttl := 180
        resourceRecords := [{ value := publicIp }] } }

/-- The `param` object of lines 166-172: a one-element change batch whose
comment interpolates the (possibly undefined) cluster name. -/
def changeParamsOf (clusterName : Option String) (hostedZoneId : String)
    (changeRecordSet : RecordChange) : ChangeParams :=
  { changeBatch :=
      { comment := "Auto generated Record for ECS cluster " ++ jsStr clusterName
        changes := [changeRecordSet] }
    hostedZoneId := hostedZoneId }

/-- Lines 165-175: build the `changeResourceRecordSets` parameter around the
single change record and submit it. -/
def updateDnsRecord (env : Env) (clusterName : Option String) (hostedZoneId : String)
    (changeRecordSet : RecordChange) : List CallEvent × Except JsErr Unit :=
  let param := changeParamsOf clusterName hostedZoneId changeRecordSet
  match env.changeResourceRecordSets param with
  | Except.error e => ([CallEvent.changeRRS param], Except.error (JsErr.api e))
  | Except.ok _ => ([CallEvent.changeRRS param], Except.ok ())

/-- Lines 57-64 of `handler`, reached right after the public IP was resolved:
`task.group.split(":")` throws a TypeError when `group` is absent; otherwise
the record set is built (from the domain tag and the possibly-undefined
`taskPublicIp`) and the DNS upsert is submitted. -/
def handlerAfterIp (env : Env) (clusterName : Option String)
    (domain hostedZoneId : String) (group : Option String)
    (taskPublicIp : Option String) : List CallEvent × Except JsErr Unit :=
  match group with
  | none => ([], Except.error JsErr.typeError)
  | some _ =>
      let recordSet := createRecordSet domain taskPublicIp
      updateDnsRecord env clusterName hostedZoneId recordSet

/-- First occurrence of the (non-empty) separator `sep` in a character list:
`some (pre, post)` splits the list into the part before the occurrence and
the part after it; `none` when `sep` does not occur. -/
def splitFirst (sep : List Char) : List Char → Option (List Char × List Char)
  | [] => none
  | c :: cs =>
      if sep.isPrefixOf (c :: cs) then some ([], (c :: cs).drop sep.length)
      else
        match splitFirst sep cs with
        | none => none
        | some (pre, post) => some (c :: pre, post)

/-- Line 22: `clusterArn.split(':cluster/')[1]` for a defined `clusterArn`.
JS `split` with a non-empty separator scans left to right, so element 1
exists iff the separator occurs, and is the text between the first occurrence
and the following occurrence (or the end of the string). -/
def clusterNameOf (clusterArn : String) : Option String :=
  match splitFirst ":cluster/".data clusterArn.data with
  | none => none
  | some (_, post) =>
      match splitFirst ":cluster/".data post with
      | none => some (String.mk post)
      | some (pre2, _) => some (String.mk pre2)

/-- Lines 14-65: the Lambda handler, over `task = event.detail`.  An absent
`clusterArn` makes `clusterArn.split(':cluster/')` (line 22) throw before any
remote call. -/
def handler (env : Env) (task : TaskDetail) : List CallEvent × Except JsErr Unit :=
  match task.clusterArn with
  | none => ([], Except.error JsErr.typeError)
  | some clusterArn =>
      let clusterName := clusterNameOf clusterArn
      let ft := fetchTags env task.taskArn
      match ft.2 with
      | Except.error e => (ft.1, Except.error e)
      | Except.ok tags =>
          match jsT (tags "domain"), jsT (tags "hostedZoneId") with
          | some domain, some hostedZoneId =>
              (match jsT (getEniId task) with
               | some eniId =>
                   let r := fetchEniPublicIp env eniId
                   (match r.2 with
                    | Except.error e => (ft.1 ++ r.1, Except.error e)
                    | Except.ok taskPublicIp =>
                        let rest := handlerAfterIp env clusterName domain hostedZoneId
                            task.group taskPublicIp
                        (ft.1 ++ r.1 ++ rest.1, rest.2))
               | none =>
                   match jsT task.containerInstanceArn with
                   | some cia =>
                       let r := fetchContainerPublicIp env
                           { containerInstances := [cia], cluster := clusterArn }
                       (match r.2 with
                        | Except.error e => (ft.1 ++ r.1, Except.error e)
                        | Except.ok taskPublicIp =>
                            let rest := handlerAfterIp env clusterName domain hostedZoneId
                                task.group taskPublicIp
                            (ft.1 ++ r.1 ++ rest.1, rest.2))
                   | none => (ft.1, Except.ok ()))
          | _, _ => (ft.1, Except.ok ())

/-- The error message of a rejected SDK call, `none` on fulfilment. -/
def errOf {α : Type} : Except String α → Option String
  | Except.error m => some m
  | Except.ok _ => none

/-- What the environment answers to one recorded call: `some m` when that
call rejects with message `m`. -/
def callErr (env : Env) : CallEvent → Option String
  | CallEvent.listTags a => errOf (env.listTagsForResource a)
  | CallEvent.descNetworkInterfaces e => errOf (env.describeNetworkInterfaces e)
  | CallEvent.descContainerInstances p => errOf (env.describeContainerInstances p)
  | CallEvent.descInstances i => errOf (env.describeInstances i)
  | CallEvent.changeRRS p => errOf (env.changeResourceRecordSets p)

/-- Phase of a remote call in the handler's conceptual flow: tag lookup (0),
IP resolution (1), DNS upsert (2). -/
def phase : CallEvent → Nat
  | CallEvent.listTags _ => 0
  | CallEvent.changeRRS _ => 2
  | _ => 1

/-- Whether a recorded call is the DNS change submission. -/
def isChangeRRS : CallEvent → Bool
  | CallEvent.changeRRS _ => true
  | _ => false

/-- `v` is the outcome of the IP resolution the handler's branch performs on
`task`: the ENI lookup on the extracted eni id (Fargate path), or the
container-instance lookup built from `containerInstanceArn` and the cluster
ARN (EC2 path). -/
def ResolvedIp (env : Env) (task : TaskDetail) (v : Option String) : Prop :=
  (∃ eniId, jsT (getEniId task) = some eniId ∧
      (fetchEniPublicIp env eniId).2 = Except.ok v) ∨
  (jsT (getEniId task) = none ∧
    ∃ cia arn, task.clusterArn = some arn ∧
      jsT task.containerInstanceArn = some cia ∧
      (fetchContainerPublicIp env
          { containerInstances := [cia], cluster := arn }).2 = Except.ok v)

/-! Concrete fixtures used by the counterexample run and the witnesses. -/

/-- A task whose cluster carries both tags and that runs on EC2 (no eni
attachment, a container instance ARN). -/
def taskC3 : TaskDetail :=
  { clusterArn := some "arn:aws:ecs:eu-central-1:123456789012:cluster/mycluster"
    taskArn := some "arn:aws:ecs:eu-central-1:123456789012:task/abc"
    attachments := []
    containerInstanceArn := some "ci-1"
    group := some "service:myservice" }

/-- A world in which both tags exist, the container instance resolves to EC2
instance `i-0abc`, and that instance has NO public IP address. -/
def envC3 : Env :=
  { listTagsForResource := fun _ => Except.ok
      { tags := some [{ key := "domain", value := "app.example.com" },
                      { key := "hostedZoneId", value := "Z123" }] }
    describeNetworkInterfaces := fun _ => Except.error "unused"
    describeContainerInstances := fun _ => Except.ok
      { containerInstances := some [{ ec2InstanceId := some "i-0abc" }] }
    describeInstances := fun _ => Except.ok
      { reservations := some [{ instances := some [{ publicIpAddress := none }] }] }
    changeResourceRecordSets := fun _ => Except.ok () }

/-- The change request the run on `envC3` / `taskC3` submits: its single
record has no `Value` (JS `undefined`). -/
def paramC3 : ChangeParams :=
  changeParamsOf (some "mycluster") "Z123" (createRecordSet "app.example.com" none)

/-- A Fargate task: one eni attachment carrying a network interface id. -/
def taskF : TaskDetail :=
  { clusterArn := some "arn:aws:ecs:eu-central-1:123456789012:cluster/cl"
    taskArn := some "arn:aws:ecs:eu-central-1:123456789012:task/def"
    attachments := [{ type := "eni"
                      details := [{ name := "networkInterfaceId", value := some "eni-1" }] }]
    containerInstanceArn := none
    group := some "service:svc" }

/-- A world in which both tags exist and the network interface has the public
IP `1.2.3.4`. -/
def envF : Env :=
  { listTagsForResource := fun _ => Except.ok
      { tags := some [{ key := "domain", value := "d.example.com" },
                      { key := "hostedZoneId", value := "Z1" }] }
    describeNetworkInterfaces := fun _ => Except.ok
      { networkInterfaces := some
          [{ privateIpAddresses := some
              [{ association := some { publicIp := some "1.2.3.4" } }] }] }
    describeContainerInstances := fun _ => Except.error "unused"
    describeInstances := fun _ => Except.error "unused"
    changeResourceRecordSets := fun _ => Except.ok () }

/-- The tag response of `envF`. -/
def respF : TagsResponse :=
  { tags := some [{ key := "domain", value := "d.example.com" },
                  { key := "hostedZoneId", value := "Z1" }] }

/-- The change request the run on `envF` / `taskF` submits. -/
def paramF : ChangeParams :=
  changeParamsOf (some "cl") "Z1" (createRecordSet "d.example.com" (some "1.2.3.4"))

/-- A world in which the cluster has no tags at all. -/
def envNoTags : Env :=
  { listTagsForResource := fun _ => Except.ok { tags := some [] }
    describeNetworkInterfaces := fun _ => Except.error "unused"
    describeContainerInstances := fun _ => Except.error "unused"
    describeInstances := fun _ => Except.error "unused"
    changeResourceRecordSets := fun _ => Except.error "unused" }

/-- A world in which the tag listing itself rejects. -/
def envTagErr : Env :=
  { listTagsForResource := fun _ => Except.error "boom"
    describeNetworkInterfaces := fun _ => Except.error "unused"
    describeContainerInstances := fun _ => Except.error "unused"
    describeInstances := fun _ => Except.error "unused"
    changeResourceRecordSets := fun _ => Except.error "unused" }

/-- `taskF` with the `group` field absent. -/
def taskNoGroup : TaskDetail :=
  { taskF with group := none }

/-- `taskF` with the `clusterArn` field absent. -/
def taskNoCluster : TaskDetail :=
  { taskF with clusterArn := none }

/-! Helper lemmas. -/

theorem jsT_eq_some {o : Option String} {v : String} (h : jsT o = some v) :
    o = some v := by
  cases o with
  | none => simp [jsT] at h
  | some s =>
      simp only [jsT, Option.some_bind] at h
      split at h
      · simp at h
      · exact h

theorem join_map_eq_bind {α β : Type} (f : α → Option β) (x : Option α) :
    (x.map f).join = x.bind f := by
  cases x <;> rfl

/-- Evaluating the fold of lines 71-75 at one key: the last tag with that key
wins, and keys never assigned fall through to the initial hash. -/
theorem tagsToMap_foldl (l : List Tag) (m : String → Option String) (k : String) :
    (l.foldl (fun hash tag => fun j => if j == tag.key then some tag.value else hash j) m) k
      = ((l.reverse.find? (fun t => t.key == k)).map Tag.value).or (m k) := by
  induction l generalizing m with
  | nil => simp
  | cons t ls ih =>
      simp only [List.foldl_cons, List.reverse_cons, List.find?_append, ih]
      cases hfind : ls.reverse.find? (fun t => t.key == k) with
      | some u => simp
      | none =>
          simp only [Option.map_none', Option.none_or, List.find?_singleton]
          by_cases hk : t.key = k
          · subst hk
            simp
          · simp only [beq_iff_eq, hk, if_false, Option.map_none', Option.none_or]
            exact if_neg (fun h => hk h.symm)

/-- `tagsToMap` is the fold of `tagsToMap_foldl` started on the empty hash. -/
theorem tagsToMap_eq_find (tags : List Tag) (k : String) :
    tagsToMap tags k = (tags.reverse.find? (fun t => t.key == k)).map Tag.value := by
  have h := tagsToMap_foldl tags (fun _ => none) k
  simpa [tagsToMap] using h

theorem fetchTags_fst (env : Env) (arn : Option String) :
    (fetchTags env arn).1 = [CallEvent.listTags arn] := by
  unfold fetchTags
  cases env.listTagsForResource arn <;> rfl

theorem fetchEniPublicIp_fst (env : Env) (eniId : String) :
    (fetchEniPublicIp env eniId).1 = [CallEvent.descNetworkInterfaces eniId] := by
  unfold fetchEniPublicIp
  cases env.describeNetworkInterfaces eniId <;> rfl

theorem fetchEC2PublicIp_fst (env : Env) (i : String) :
    (fetchEC2PublicIp env i).1 = [CallEvent.descInstances i] := by
  unfold fetchEC2PublicIp
  cases env.describeInstances i <;> rfl

theorem fetchContainerPublicIp_fst (env : Env) (p : DciParams) :
    (fetchContainerPublicIp env p).1 = [CallEvent.descContainerInstances p] ∨
    ∃ i, (fetchContainerPublicIp env p).1 =
      [CallEvent.descContainerInstances p, CallEvent.descInstances i] := by
  cases hdci : env.describeContainerInstances p with
  | error e => exact Or.inl (by simp [fetchContainerPublicIp, hdci])
  | ok data =>
      cases hnav : dciNav data with
      | error e => exact Or.inl (by simp [fetchContainerPublicIp, hdci, hnav])
      | ok ec2Id =>
          cases hjs : jsT ec2Id with
          | none => exact Or.inl (by simp [fetchContainerPublicIp, hdci, hnav, hjs])
          | some i =>
              refine Or.inr ⟨i, ?_⟩
              cases hr : (fetchEC2PublicIp env i).2 with
              | error e =>
                  simp [fetchContainerPublicIp, hdci, hnav, hjs, hr, fetchEC2PublicIp_fst]
              | ok v =>
                  simp [fetchContainerPublicIp, hdci, hnav, hjs, hr, fetchEC2PublicIp_fst]

theorem updateDnsRecord_fst (env : Env) (cn : Option String) (hz : String)
    (rs : RecordChange) :
    (updateDnsRecord env cn hz rs).1
      = [CallEvent.changeRRS (changeParamsOf cn hz rs)] := by
  cases h : env.changeResourceRecordSets (changeParamsOf cn hz rs) with
  | error e => simp [updateDnsRecord, h]
  | ok u => simp [updateDnsRecord, h]

theorem handlerAfterIp_fst (env : Env) (cn : Option String) (d hz : String)
    (g : Option String) (ip : Option String) :
    (handlerAfterIp env cn d hz g ip).1 = [] ∨
    (handlerAfterIp env cn d hz g ip).1
      = [CallEvent.changeRRS (changeParamsOf cn hz (createRecordSet d ip))] := by
  cases g with
  | none => exact Or.inl rfl
  | some s => exact Or.inr (updateDnsRecord_fst env cn hz (createRecordSet d ip))

/-- Exhaustive case analysis of one handler run: which branch of lines 14-65
was taken, the facts that selected it, and the exact trace/outcome pair it
produced. -/
theorem handler_run (env : Env) (task : TaskDetail) :
    (task.clusterArn = none ∧ handler env task = ([], Except.error JsErr.typeError))
  ∨ (∃ arn m, task.clusterArn = some arn ∧
      env.listTagsForResource task.taskArn = Except.error m ∧
      handler env task = ([CallEvent.listTags task.taskArn], Except.error (JsErr.api m)))
  ∨ (∃ arn resp, task.clusterArn = some arn ∧
      env.listTagsForResource task.taskArn = Except.ok resp ∧
      (jsT (tagsToMap (resp.tags.getD []) "domain") = none ∨
       jsT (tagsToMap (resp.tags.getD []) "hostedZoneId") = none) ∧
      handler env task = ([CallEvent.listTags task.taskArn], Except.ok ()))
  ∨ (∃ arn resp d hz eniId e, task.clusterArn = some arn ∧
      env.listTagsForResource task.taskArn = Except.ok resp ∧
      jsT (tagsToMap (resp.tags.getD []) "domain") = some d ∧
      jsT (tagsToMap (resp.tags.getD []) "hostedZoneId") = some hz ∧
      jsT (getEniId task) = some eniId ∧
      (fetchEniPublicIp env eniId).2 = Except.error e ∧
      handler env task =
        ([CallEvent.listTags task.taskArn] ++ (fetchEniPublicIp env eniId).1,
         Except.error e))
  ∨ (∃ arn resp d hz eniId ip, task.clusterArn = some arn ∧
      env.listTagsForResource task.taskArn = Except.ok resp ∧
      jsT (tagsToMap (resp.tags.getD []) "domain") = some d ∧
      jsT (tagsToMap (resp.tags.getD []) "hostedZoneId") = some hz ∧
      jsT (getEniId task) = some eniId ∧
      (fetchEniPublicIp env eniId).2 = Except.ok ip ∧
      handler env task =
        ([CallEvent.listTags task.taskArn] ++ (fetchEniPublicIp env eniId).1 ++
           (handlerAfterIp env (clusterNameOf arn) d hz task.group ip).1,
         (handlerAfterIp env (clusterNameOf arn) d hz task.group ip).2))
  ∨ (∃ arn resp d hz cia e, task.clusterArn = some arn ∧
      env.listTagsForResource task.taskArn = Except.ok resp ∧
      jsT (tagsToMap (resp.tags.getD []) "domain") = some d ∧
      jsT (tagsToMap (resp.tags.getD []) "hostedZoneId") = some hz ∧
      jsT (getEniId task) = none ∧
      jsT task.containerInstanceArn = some cia ∧
      (fetchContainerPublicIp env { containerInstances := [cia], cluster := arn }).2
        = Except.error e ∧
      handler env task =
        ([CallEvent.listTags task.taskArn] ++
           (fetchContainerPublicIp env { containerInstances := [cia], cluster := arn }).1,
         Except.error e))
  ∨ (∃ arn resp d hz cia ip, task.clusterArn = some arn ∧
      env.listTagsForResource task.taskArn = Except.ok resp ∧
      jsT (tagsToMap (resp.tags.getD []) "domain") = some d ∧
      jsT (tagsToMap (resp.tags.getD []) "hostedZoneId") = some hz ∧
      jsT (getEniId task) = none ∧
      jsT task.containerInstanceArn = some cia ∧
      (fetchContainerPublicIp env { containerInstances := [cia], cluster := arn }).2
        = Except.ok ip ∧
      handler env task =
        ([CallEvent.listTags task.taskArn] ++
           (fetchContainerPublicIp env { containerInstances := [cia], cluster := arn }).1 ++
           (handlerAfterIp env (clusterNameOf arn) d hz task.group ip).1,
         (handlerAfterIp env (clusterNameOf arn) d hz task.group ip).2))
  ∨ (∃ arn resp d hz, task.clusterArn = some arn ∧
      env.listTagsForResource task.taskArn = Except.ok resp ∧
      jsT (tagsToMap (resp.tags.getD []) "domain") = some d ∧
      jsT (tagsToMap (resp.tags.getD []) "hostedZoneId") = some hz ∧
      jsT (getEniId task) = none ∧
      jsT task.containerInstanceArn = none ∧
      handler env task = ([CallEvent.listTags task.taskArn], Except.ok ())) := by
  cases hca : task.clusterArn with
  | none => exact Or.inl ⟨rfl, by simp [handler, hca]⟩
  | some arn =>
      cases hlt : env.listTagsForResource task.taskArn with
      | error m =>
          refine Or.inr (Or.inl ⟨arn, m, rfl, rfl, ?_⟩)
          simp [handler, hca, fetchTags, hlt]
      | ok resp =>
          cases hd : jsT (tagsToMap (resp.tags.getD []) "domain") with
          | none =>
              refine Or.inr (Or.inr (Or.inl ⟨arn, resp, rfl, rfl, Or.inl hd, ?_⟩))
              simp [handler, hca, fetchTags, hlt, hd]
          | some d =>
              cases hh : jsT (tagsToMap (resp.tags.getD []) "hostedZoneId") with
              | none =>
                  refine Or.inr (Or.inr (Or.inl ⟨arn, resp, rfl, rfl, Or.inr hh, ?_⟩))
                  simp [handler, hca, fetchTags, hlt, hd, hh]
              | some hz =>
                  cases he : jsT (getEniId task) with
                  | some eniId =>
                      cases hr : (fetchEniPublicIp env eniId).2 with
                      | error e =>
                          refine Or.inr (Or.inr (Or.inr (Or.inl
                            ⟨arn, resp, d, hz, eniId, e, rfl, rfl, hd, hh, rfl, hr, ?_⟩)))
                          simp [handler, hca, fetchTags, hlt, hd, hh, he, hr]
                      | ok ip =>
                          refine Or.inr (Or.inr (Or.inr (Or.inr (Or.inl
                            ⟨arn, resp, d, hz, eniId, ip, rfl, rfl, hd, hh, rfl, hr, ?_⟩))))
                          simp [handler, hca, fetchTags, hlt, hd, hh, he, hr]
                  | none =>
                      cases hcia : jsT task.containerInstanceArn with
                      | some cia =>
                          cases hfc : (fetchContainerPublicIp env
                              { containerInstances := [cia], cluster := arn }).2 with
                          | error e =>
                              refine Or.inr (Or.inr (Or.inr (Or.inr (Or.inr (Or.inl
                                ⟨arn, resp, d, hz, cia, e, rfl, rfl, hd, hh, rfl, rfl, hfc, ?_⟩)))))
                              simp [handler, hca, fetchTags, hlt, hd, hh, he, hcia, hfc]
                          | ok ip =>
                              refine Or.inr (Or.inr (Or.inr (Or.inr (Or.inr (Or.inr (Or.inl
                                ⟨arn, resp, d, hz, cia, ip, rfl, rfl, hd, hh, rfl, rfl, hfc, ?_⟩))))))
                              simp [handler, hca, fetchTags, hlt, hd, hh, he, hcia, hfc]
                      | none =>
                          refine Or.inr (Or.inr (Or.inr (Or.inr (Or.inr (Or.inr (Or.inr
                            ⟨arn, resp, d, hz, rfl, rfl, hd, hh, rfl, rfl, ?_⟩))))))
                          simp [handler, hca, fetchTags, hlt, hd, hh, he, hcia]

/-- Every call `fetchContainerPublicIp` records belongs to the IP-resolution
phase. -/
theorem phase_fetchContainerPublicIp (env : Env) (p : DciParams) :
    ∀ e ∈ (fetchContainerPublicIp env p).1, phase e = 1 := by
  intro e he
  rcases fetchContainerPublicIp_fst env p with h | ⟨i, h⟩ <;> rw [h] at he
  · simp at he
    subst he
    rfl
  · simp at he
    rcases he with he | he <;> subst he <;> rfl

/-- `fetchContainerPublicIp` always records at least its first call. -/
theorem fetchContainerPublicIp_ne_nil (env : Env) (p : DciParams) :
    (fetchContainerPublicIp env p).1 ≠ [] := by
  rcases fetchContainerPublicIp_fst env p with h | ⟨i, h⟩ <;> simp [h]

/-- A rejected call recorded by `fetchEniPublicIp` is its last call and its
rejection is the function's outcome. -/
theorem errStops_fetchEniPublicIp (env : Env) (eniId : String) :
    ∀ e m, e ∈ (fetchEniPublicIp env eniId).1 → callErr env e = some m →
      (fetchEniPublicIp env eniId).1.getLast? = some e ∧
      (fetchEniPublicIp env eniId).2 = Except.error (JsErr.api m) := by
  intro e m hmem hc
  rw [fetchEniPublicIp_fst] at hmem
  simp at hmem
  subst hmem
  cases hni : env.describeNetworkInterfaces eniId with
  | error m2 =>
      simp [callErr, errOf, hni] at hc
      subst hc
      exact ⟨by simp [fetchEniPublicIp_fst], by simp [fetchEniPublicIp, hni]⟩
  | ok data => simp [callErr, errOf, hni] at hc

/-- A rejected call recorded by `fetchEC2PublicIp` is its last call and its
rejection is the function's outcome. -/
theorem errStops_fetchEC2PublicIp (env : Env) (i : String) :
    ∀ e m, e ∈ (fetchEC2PublicIp env i).1 → callErr env e = some m →
      (fetchEC2PublicIp env i).1.getLast? = some e ∧
      (fetchEC2PublicIp env i).2 = Except.error (JsErr.api m) := by
  intro e m hmem hc
  rw [fetchEC2PublicIp_fst] at hmem
  simp at hmem
  subst hmem
  cases hdi : env.describeInstances i with
  | error m2 =>
      simp [callErr, errOf, hdi] at hc
      subst hc
      exact ⟨by simp [fetchEC2PublicIp_fst], by simp [fetchEC2PublicIp, hdi]⟩
  | ok data => simp [callErr, errOf, hdi] at hc

/-- A rejected call recorded by `fetchContainerPublicIp` is its last call and
its rejection is the function's outcome. -/
theorem errStops_fetchContainerPublicIp (env : Env) (p : DciParams) :
    ∀ e m, e ∈ (fetchContainerPublicIp env p).1 → callErr env e = some m →
      (fetchContainerPublicIp env p).1.getLast? = some e ∧
      (fetchContainerPublicIp env p).2 = Except.error (JsErr.api m) := by
  intro e m hmem hc
  cases hdci : env.describeContainerInstances p with
  | error m2 =>
      have heq : fetchContainerPublicIp env p
          = ([CallEvent.descContainerInstances p], Except.error (JsErr.api m2)) := by
        simp [fetchContainerPublicIp, hdci]
      rw [heq] at hmem ⊢
      simp at hmem
      subst hmem
      simp [callErr, errOf, hdci] at hc
      subst hc
      exact ⟨by simp, rfl⟩
  | ok data =>
      cases hnav : dciNav data with
      | error e0 =>
          have heq : fetchContainerPublicIp env p
              = ([CallEvent.descContainerInstances p], Except.error e0) := by
            simp [fetchContainerPublicIp, hdci, hnav]
          rw [heq] at hmem
          simp at hmem
          subst hmem
          simp [callErr, errOf, hdci] at hc
      | ok ec2Id =>
          cases hjs : jsT ec2Id with
          | none =>
              have heq : fetchContainerPublicIp env p
                  = ([CallEvent.descContainerInstances p],
                     Except.error JsErr.referenceError) := by
                simp [fetchContainerPublicIp, hdci, hnav, hjs]
              rw [heq] at hmem
              simp at hmem
              subst hmem
              simp [callErr, errOf, hdci] at hc
          | some i =>
              cases hdi : env.describeInstances i with
              | error m2 =>
                  have heq : fetchContainerPublicIp env p
                      = ([CallEvent.descContainerInstances p,
                          CallEvent.descInstances i],
                         Except.error (JsErr.api m2)) := by
                    simp [fetchContainerPublicIp, hdci, hnav, hjs,
                      fetchEC2PublicIp, hdi]
                  rw [heq] at hmem ⊢
                  simp at hmem
                  rcases hmem with hmem | hmem <;> subst hmem
                  · simp [callErr, errOf, hdci] at hc
                  · simp [callErr, errOf, hdi] at hc
                    subst hc
                    exact ⟨by simp, rfl⟩
              | ok ddata =>
                  cases hnav2 : ec2Nav ddata with
                  | error e0 =>
                      have heq : fetchContainerPublicIp env p
                          = ([CallEvent.descContainerInstances p,
                              CallEvent.descInstances i], Except.error e0) := by
                        simp [fetchContainerPublicIp, hdci, hnav, hjs,
                          fetchEC2PublicIp, hdi, hnav2]
                      rw [heq] at hmem
                      simp at hmem
                      rcases hmem with hmem | hmem <;> subst hmem
                      · simp [callErr, errOf, hdci] at hc
                      · simp [callErr, errOf, hdi] at hc
                  | ok v =>
                      have heq : fetchContainerPublicIp env p
                          = ([CallEvent.descContainerInstances p,
                              CallEvent.descInstances i], Except.ok (jsT v)) := by
                        simp [fetchContainerPublicIp, hdci, hnav, hjs,
                          fetchEC2PublicIp, hdi, hnav2]
                      rw [heq] at hmem
                      simp at hmem
                      rcases hmem with hmem | hmem <;> subst hmem
                      · simp [callErr, errOf, hdci] at hc
                      · simp [callErr, errOf, hdi] at hc

/-- A rejected call recorded by the post-resolution step (lines 57-64) is its
last call and its rejection is the step's outcome. -/
theorem errStops_handlerAfterIp (env : Env) (cn : Option String) (d hz : String)
    (g : Option String) (ip : Option String) :
    ∀ e m, e ∈ (handlerAfterIp env cn d hz g ip).1 → callErr env e = some m →
      (handlerAfterIp env cn d hz g ip).1.getLast? = some e ∧
      (handlerAfterIp env cn d hz g ip).2 = Except.error (JsErr.api m) := by
  intro e m hmem hc
  cases g with
  | none => simp [handlerAfterIp] at hmem
  | some s =>
      cases hch : env.changeResourceRecordSets
          (changeParamsOf cn hz (createRecordSet d ip)) with
      | error m2 =>
          have heq : handlerAfterIp env cn d hz (some s) ip
              = ([CallEvent.changeRRS (changeParamsOf cn hz (createRecordSet d ip))],
                 Except.error (JsErr.api m2)) := by
            simp [handlerAfterIp, updateDnsRecord, hch]
          rw [heq] at hmem ⊢
          simp at hmem
          subst hmem
          simp [callErr, errOf, hch] at hc
          subst hc
          exact ⟨by simp, rfl⟩
      | ok u =>
          have heq : handlerAfterIp env cn d hz (some s) ip
              = ([CallEvent.changeRRS (changeParamsOf cn hz (createRecordSet d ip))],
                 Except.ok ()) := by
            simp [handlerAfterIp, updateDnsRecord, hch]
          rw [heq] at hmem
          simp at hmem
          subst hmem
          simp [callErr, errOf, hch] at hc

/-- Claim C1: whenever a run submits a DNS change request, that request's
`HostedZoneId` is the value the tag fetch returned for key `hostedZoneId`,
and the (single) record set's `Name` is the value returned for key
`domain`. -/
theorem dns_upsert_keyed_by_tags (env : Env) (task : TaskDetail) (p : ChangeParams)
    (hmem : CallEvent.changeRRS p ∈ (handler env task).1) :
    ∃ resp, env.listTagsForResource task.taskArn = Except.ok resp ∧
      tagsToMap (resp.tags.getD []) "hostedZoneId" = some p.hostedZoneId ∧
      ∃ c, p.changeBatch.changes = [c] ∧
        tagsToMap (resp.tags.getD []) "domain" = some c.resourceRecordSet.name := by
  rcases handler_run env task with
      ⟨_, heq⟩
    | ⟨arn, m, _, _, heq⟩
    | ⟨arn, resp, _, _, _, heq⟩
    | ⟨arn, resp, d, hz, eniId, e, _, hlt, hd, hh, _, _, heq⟩
    | ⟨arn, resp, d, hz, eniId, ip, _, hlt, hd, hh, _, _, heq⟩
    | ⟨arn, resp, d, hz, cia, e, _, hlt, hd, hh, _, _, _, heq⟩
    | ⟨arn, resp, d, hz, cia, ip, _, hlt, hd, hh, _, _, _, heq⟩
    | ⟨arn, resp, d, hz, _, hlt, _, _, _, _, heq⟩
  · rw [heq] at hmem
    simp at hmem
  · rw [heq] at hmem
    simp at hmem
  · rw [heq] at hmem
    simp at hmem
  · rw [heq, fetchEniPublicIp_fst] at hmem
    simp at hmem
  · rw [heq, fetchEniPublicIp_fst] at hmem
    rcases handlerAfterIp_fst env (clusterNameOf arn) d hz task.group ip with
        hres | hres <;> rw [hres] at hmem
    · simp at hmem
    · simp at hmem
      subst hmem
      exact ⟨resp, hlt, jsT_eq_some hh, createRecordSet d ip, rfl, jsT_eq_some hd⟩
  · rw [heq] at hmem
    rcases fetchContainerPublicIp_fst env
        { containerInstances := [cia], cluster := arn } with hfst | ⟨i, hfst⟩ <;>
      rw [hfst] at hmem <;> simp at hmem
  · rw [heq] at hmem
    rcases fetchContainerPublicIp_fst env
        { containerInstances := [cia], cluster := arn } with hfst | ⟨i, hfst⟩ <;>
      rw [hfst] at hmem <;>
      rcases handlerAfterIp_fst env (clusterNameOf arn) d hz task.group ip with
          hres | hres <;> rw [hres] at hmem <;> simp at hmem <;>
      (subst hmem
       exact ⟨resp, hlt, jsT_eq_some hh, createRecordSet d ip, rfl, jsT_eq_some hd⟩)
  · rw [heq] at hmem
    simp at hmem

/-- Witness for C1: on the concrete Fargate run `envF` / `taskF`, the
submitted request is keyed by the fetched `hostedZoneId` and `domain` tag
values. -/
theorem dns_upsert_keyed_by_tags_witness :
    ∃ resp, envF.listTagsForResource taskF.taskArn = Except.ok resp ∧
      tagsToMap (resp.tags.getD []) "hostedZoneId" = some paramF.hostedZoneId ∧
      ∃ c, paramF.changeBatch.changes = [c] ∧
        tagsToMap (resp.tags.getD []) "domain" = some c.resourceRecordSet.name :=
  dns_upsert_keyed_by_tags envF taskF paramF (by decide)

/-- Claim C2: when the fetched tag map lacks a truthy `domain` or a truthy
`hostedZoneId`, the handler returns normally right after the tag lookup: no
further remote call, no DNS upsert, no exception. -/
theorem missing_tags_skip (env : Env) (task : TaskDetail) (arn : String)
    (resp : TagsResponse)
    (hca : task.clusterArn = some arn)
    (hlt : env.listTagsForResource task.taskArn = Except.ok resp)
    (hmiss : jsT (tagsToMap (resp.tags.getD []) "domain") = none ∨
             jsT (tagsToMap (resp.tags.getD []) "hostedZoneId") = none) :
    handler env task = ([CallEvent.listTags task.taskArn], Except.ok ()) := by
  rcases hmiss with hmiss | hmiss
  · cases hh : jsT (tagsToMap (resp.tags.getD []) "hostedZoneId") <;>
      simp [handler, hca, fetchTags, hlt, hmiss, hh]
  · cases hd : jsT (tagsToMap (resp.tags.getD []) "domain") <;>
      simp [handler, hca, fetchTags, hlt, hd, hmiss]

/-- Witness for C2: a cluster with an empty tag list makes the handler stop
after the single tag-listing call. -/
theorem missing_tags_skip_witness :
    handler envNoTags taskF = ([CallEvent.listTags taskF.taskArn], Except.ok ()) :=
  missing_tags_skip envNoTags taskF
    "arn:aws:ecs:eu-central-1:123456789012:cluster/cl" { tags := some [] }
    rfl rfl (Or.inl rfl)

/-- Claim C3 is violated by the code: on `envC3` / `taskC3` the EC2 instance
has no public IP, `fetchContainerPublicIp` logs and returns `undefined`, yet
the handler does NOT return early — it submits the DNS change request
`paramC3`, whose single record carries no `Value`, and finishes normally. -/
theorem unresolved_ip_still_upserts :
    (handler envC3 taskC3).1
        = [CallEvent.listTags taskC3.taskArn,
           CallEvent.descContainerInstances
             { containerInstances := ["ci-1"]
               cluster := "arn:aws:ecs:eu-central-1:123456789012:cluster/mycluster" },
           CallEvent.descInstances "i-0abc",
           CallEvent.changeRRS paramC3]
      ∧ (handler envC3 taskC3).2 = Except.ok ()
      ∧ paramC3.changeBatch.changes
          = [{ action := "UPSERT"
               resourceRecordSet :=
                 { name := "app.example.com"
                   type := "A"
                   ttl := 180
                   resourceRecords := [{ value := none }] } }] :=
  ⟨by decide, rfl, by decide⟩

/-- Claim C4: a run records at most one DNS change request; when it records
one, the change batch holds exactly one change: an `UPSERT` of an `A` record
whose name is the fetched `domain` tag value, with TTL 180 and a single value
slot holding exactly the outcome of the IP resolution the run performed. -/
theorem single_change_upsert (env : Env) (task : TaskDetail) :
    ((handler env task).1.countP (fun e => isChangeRRS e)) ≤ 1 ∧
    ∀ p, CallEvent.changeRRS p ∈ (handler env task).1 →
      ∃ c, p.changeBatch.changes = [c] ∧
        c.action = "UPSERT" ∧
        c.resourceRecordSet.type = "A" ∧
        c.resourceRecordSet.ttl = 180 ∧
        (∃ resp, env.listTagsForResource task.taskArn = Except.ok resp ∧
          tagsToMap (resp.tags.getD []) "domain" = some c.resourceRecordSet.name) ∧
        ∃ v, c.resourceRecordSet.resourceRecords = [{ value := v }] ∧
          ResolvedIp env task v := by
  rcases handler_run env task with
      ⟨_, heq⟩
    | ⟨arn, m, _, _, heq⟩
    | ⟨arn, resp, _, _, _, heq⟩
    | ⟨arn, resp, d, hz, eniId, e, _, hlt, hd, hh, he, hr, heq⟩
    | ⟨arn, resp, d, hz, eniId, ip, _, hlt, hd, hh, he, hr, heq⟩
    | ⟨arn, resp, d, hz, cia, e, _, hlt, hd, hh, he, hcia, hfc, heq⟩
    | ⟨arn, resp, d, hz, cia, ip, hca, hlt, hd, hh, he, hcia, hfc, heq⟩
    | ⟨arn, resp, d, hz, _, hlt, hd, hh, he, hcia, heq⟩
  · rw [heq]
    exact ⟨by simp, by intro p hp; simp at hp⟩
  · rw [heq]
    exact ⟨by simp [isChangeRRS], by intro p hp; simp at hp⟩
  · rw [heq]
    exact ⟨by simp [isChangeRRS], by intro p hp; simp at hp⟩
  · rw [heq, fetchEniPublicIp_fst]
    exact ⟨by simp [isChangeRRS], by intro p hp; simp at hp⟩
  · rw [heq, fetchEniPublicIp_fst]
    rcases handlerAfterIp_fst env (clusterNameOf arn) d hz task.group ip with
        hres | hres <;> rw [hres]
    · exact ⟨by simp [isChangeRRS], by intro p hp; simp at hp⟩
    · refine ⟨by simp [isChangeRRS], ?_⟩
      intro p hp
      simp at hp
      subst hp
      exact ⟨createRecordSet d ip, rfl, rfl, rfl, rfl,
        ⟨resp, hlt, jsT_eq_some hd⟩, ip, rfl, Or.inl ⟨eniId, he, hr⟩⟩
  · rw [heq]
    rcases fetchContainerPublicIp_fst env
        { containerInstances := [cia], cluster := arn } with hfst | ⟨i, hfst⟩ <;>
      rw [hfst]
    · exact ⟨by simp [isChangeRRS], by intro p hp; simp at hp⟩
    · exact ⟨by simp [isChangeRRS], by intro p hp; simp at hp⟩
  · rw [heq]
    rcases fetchContainerPublicIp_fst env
        { containerInstances := [cia], cluster := arn } with hfst | ⟨i, hfst⟩ <;>
      rw [hfst] <;>
      rcases handlerAfterIp_fst env (clusterNameOf arn) d hz task.group ip with
          hres | hres <;> rw [hres]
    · exact ⟨by simp [isChangeRRS], by intro p hp; simp at hp⟩
    · refine ⟨by simp [isChangeRRS], ?_⟩
      intro p hp
      simp at hp
      subst hp
      exact ⟨createRecordSet d ip, rfl, rfl, rfl, rfl,
        ⟨resp, hlt, jsT_eq_some hd⟩, ip, rfl,
        Or.inr ⟨he, cia, arn, hca, hcia, hfc⟩⟩
    · exact ⟨by simp [isChangeRRS], by intro p hp; simp at hp⟩
    · refine ⟨by simp [isChangeRRS], ?_⟩
      intro p hp
      simp at hp
      subst hp
      exact ⟨createRecordSet d ip, rfl, rfl, rfl, rfl,
        ⟨resp, hlt, jsT_eq_some hd⟩, ip, rfl,
        Or.inr ⟨he, cia, arn, hca, hcia, hfc⟩⟩
  · rw [heq]
    exact ⟨by simp [isChangeRRS], by intro p hp; simp at hp⟩

/-- Witness for C4: the concrete Fargate run submits one request whose batch
is the single `UPSERT` A-record named by the fetched `domain` tag, with TTL
180, carrying the resolved IP. -/
theorem single_change_upsert_witness :
    ((handler envF taskF).1.countP (fun e => isChangeRRS e)) ≤ 1 ∧
    ∃ c, paramF.changeBatch.changes = [c] ∧
      c.action = "UPSERT" ∧
      c.resourceRecordSet.type = "A" ∧
      c.resourceRecordSet.ttl = 180 ∧
      (∃ resp, envF.listTagsForResource taskF.taskArn = Except.ok resp ∧
        tagsToMap (resp.tags.getD []) "domain" = some c.resourceRecordSet.name) ∧
      ∃ v, c.resourceRecordSet.resourceRecords = [{ value := v }] ∧
        ResolvedIp envF taskF v :=
  ⟨(single_change_upsert envF taskF).1,
   (single_change_upsert envF taskF).2 paramF (by decide)⟩

/-- Claim C5: once past the tag check, the handler branches exactly on
whether an eni id was extracted (Fargate: network-interface lookup, never the
container-instance or instance lookups), else on whether a container instance
ARN is present (EC2: container-instance lookup, never the network-interface
lookup), else it returns right away with no further remote call. -/
theorem launch_type_branch (env : Env) (task : TaskDetail) (arn : String)
    (resp : TagsResponse) (d hz : String)
    (hca : task.clusterArn = some arn)
    (hlt : env.listTagsForResource task.taskArn = Except.ok resp)
    (hd : jsT (tagsToMap (resp.tags.getD []) "domain") = some d)
    (hh : jsT (tagsToMap (resp.tags.getD []) "hostedZoneId") = some hz) :
    (∀ eniId, jsT (getEniId task) = some eniId →
       CallEvent.descNetworkInterfaces eniId ∈ (handler env task).1 ∧
       (∀ q, CallEvent.descContainerInstances q ∉ (handler env task).1) ∧
       (∀ i, CallEvent.descInstances i ∉ (handler env task).1)) ∧
    (jsT (getEniId task) = none →
       ∀ cia, jsT task.containerInstanceArn = some cia →
         CallEvent.descContainerInstances
             { containerInstances := [cia], cluster := arn } ∈ (handler env task).1 ∧
         (∀ e, CallEvent.descNetworkInterfaces e ∉ (handler env task).1)) ∧
    (jsT (getEniId task) = none → jsT task.containerInstanceArn = none →
       handler env task = ([CallEvent.listTags task.taskArn], Except.ok ())) := by
  refine ⟨?_, ?_, ?_⟩
  · intro eniId he
    cases hr : (fetchEniPublicIp env eniId).2 with
    | error e =>
        have heq : handler env task
            = ([CallEvent.listTags task.taskArn] ++ (fetchEniPublicIp env eniId).1,
               Except.error e) := by
          simp [handler, hca, fetchTags, hlt, hd, hh, he, hr]
        rw [heq, fetchEniPublicIp_fst]
        refine ⟨by simp, fun q => by simp, fun i => by simp⟩
    | ok ip =>
        have heq : handler env task
            = ([CallEvent.listTags task.taskArn] ++ (fetchEniPublicIp env eniId).1 ++
                 (handlerAfterIp env (clusterNameOf arn) d hz task.group ip).1,
               (handlerAfterIp env (clusterNameOf arn) d hz task.group ip).2) := by
          simp [handler, hca, fetchTags, hlt, hd, hh, he, hr]
        rw [heq, fetchEniPublicIp_fst]
        rcases handlerAfterIp_fst env (clusterNameOf arn) d hz task.group ip with
            hres | hres <;> rw [hres]
        · refine ⟨by simp, fun q => by simp, fun i => by simp⟩
        · refine ⟨by simp, fun q => by simp, fun i => by simp⟩
  · intro he cia hcia
    cases hfc : (fetchContainerPublicIp env
        { containerInstances := [cia], cluster := arn }).2 with
    | error e =>
        have heq : handler env task
            = ([CallEvent.listTags task.taskArn] ++
                 (fetchContainerPublicIp env
                   { containerInstances := [cia], cluster := arn }).1,
               Except.error e) := by
          simp [handler, hca, fetchTags, hlt, hd, hh, he, hcia, hfc]
        rw [heq]
        rcases fetchContainerPublicIp_fst env
            { containerInstances := [cia], cluster := arn } with hfst | ⟨i, hfst⟩ <;>
          rw [hfst]
        · refine ⟨by simp, fun e2 => by simp⟩
        · refine ⟨by simp, fun e2 => by simp⟩
    | ok ip =>
        have heq : handler env task
            = ([CallEvent.listTags task.taskArn] ++
                 (fetchContainerPublicIp env
                   { containerInstances := [cia], cluster := arn }).1 ++
                 (handlerAfterIp env (clusterNameOf arn) d hz task.group ip).1,
               (handlerAfterIp env (clusterNameOf arn) d hz task.group ip).2) := by
          simp [handler, hca, fetchTags, hlt, hd, hh, he, hcia, hfc]
        rw [heq]
        rcases fetchContainerPublicIp_fst env
            { containerInstances := [cia], cluster := arn } with hfst | ⟨i, hfst⟩ <;>
          rw [hfst] <;>
          rcases handlerAfterIp_fst env (clusterNameOf arn) d hz task.group ip with
              hres | hres <;> rw [hres]
        · refine ⟨by simp, fun e2 => by simp⟩
        · refine ⟨by simp, fun e2 => by simp⟩
        · refine ⟨by simp, fun e2 => by simp⟩
        · refine ⟨by simp, fun e2 => by simp⟩
  · intro he hcia
    simp [handler, hca, fetchTags, hlt, hd, hh, he, hcia]

/-- Witness for C5: the concrete Fargate run resolves via the
network-interface lookup and never touches the EC2 path lookups. -/
theorem launch_type_branch_witness :
    CallEvent.descNetworkInterfaces "eni-1" ∈ (handler envF taskF).1 ∧
    (∀ q, CallEvent.descContainerInstances q ∉ (handler envF taskF).1) ∧
    (∀ i, CallEvent.descInstances i ∉ (handler envF taskF).1) :=
  (launch_type_branch envF taskF "arn:aws:ecs:eu-central-1:123456789012:cluster/cl"
      respF "d.example.com" "Z1" rfl rfl (by decide) (by decide)).1 "eni-1" (by decide)

theorem getLast?_cons_of_getLast? {α : Type} (a : α) {l : List α} {e : α}
    (h : l.getLast? = some e) : (a :: l).getLast? = some e := by
  rw [show a :: l = [a] ++ l from rfl, List.getLast?_append, h]
  rfl

theorem getLast?_append_of_getLast? {α : Type} (l₁ : List α) {l₂ : List α} {e : α}
    (h : l₂.getLast? = some e) : (l₁ ++ l₂).getLast? = some e := by
  rw [List.getLast?_append, h]
  rfl

/-- Claim C6: no remote failure is caught.  If a recorded call rejected, that
call is the last one the run made (nothing after it executed) and the
handler's outcome is exactly that rejection, surfaced as `JsErr.api`. -/
theorem api_error_propagates (env : Env) (task : TaskDetail) :
    ∀ e m, e ∈ (handler env task).1 → callErr env e = some m →
      (handler env task).1.getLast? = some e ∧
      (handler env task).2 = Except.error (JsErr.api m) := by
  intro e m hmem hc
  rcases handler_run env task with
      ⟨_, heq⟩
    | ⟨arn, m2, _, hlt, heq⟩
    | ⟨arn, resp, _, hlt, _, heq⟩
    | ⟨arn, resp, d, hz, eniId, e0, _, hlt, hd, hh, he, hr, heq⟩
    | ⟨arn, resp, d, hz, eniId, ip, _, hlt, hd, hh, he, hr, heq⟩
    | ⟨arn, resp, d, hz, cia, e0, _, hlt, hd, hh, he, hcia, hfc, heq⟩
    | ⟨arn, resp, d, hz, cia, ip, _, hlt, hd, hh, he, hcia, hfc, heq⟩
    | ⟨arn, resp, d, hz, _, hlt, hd, hh, he, hcia, heq⟩
  · rw [heq] at hmem
    simp at hmem
  · rw [heq] at hmem ⊢
    simp at hmem
    subst hmem
    simp [callErr, errOf, hlt] at hc
    subst hc
    exact ⟨by simp, rfl⟩
  · rw [heq] at hmem
    simp at hmem
    subst hmem
    simp [callErr, errOf, hlt] at hc
  · rw [heq, fetchEniPublicIp_fst] at hmem ⊢
    simp at hmem
    rcases hmem with hmem | hmem <;> subst hmem
    · simp [callErr, errOf, hlt] at hc
    · cases hni : env.describeNetworkInterfaces eniId with
      | error m2 =>
          simp [callErr, errOf, hni] at hc
          subst hc
          simp [fetchEniPublicIp, hni] at hr
          subst hr
          exact ⟨by simp, rfl⟩
      | ok data => simp [callErr, errOf, hni] at hc
  · rw [heq, fetchEniPublicIp_fst] at hmem ⊢
    simp at hmem
    rcases hmem with hmem | hmem | hmem
    · subst hmem
      simp [callErr, errOf, hlt] at hc
    · subst hmem
      cases hni : env.describeNetworkInterfaces eniId with
      | error m2 => simp [fetchEniPublicIp, hni] at hr
      | ok data => simp [callErr, errOf, hni] at hc
    · rcases errStops_handlerAfterIp env (clusterNameOf arn) d hz task.group ip
          e m hmem hc with ⟨hlast, h2⟩
      exact ⟨getLast?_cons_of_getLast? _ (getLast?_cons_of_getLast? _ hlast), h2⟩
  · rw [heq] at hmem ⊢
    simp at hmem
    rcases hmem with hmem | hmem
    · subst hmem
      simp [callErr, errOf, hlt] at hc
    · rcases errStops_fetchContainerPublicIp env
          { containerInstances := [cia], cluster := arn } e m hmem hc with ⟨hlast, h2⟩
      rw [h2] at hfc
      cases hfc
      exact ⟨getLast?_cons_of_getLast? _ hlast, rfl⟩
  · rw [heq] at hmem ⊢
    simp at hmem
    rcases hmem with hmem | hmem | hmem
    · subst hmem
      simp [callErr, errOf, hlt] at hc
    · rcases errStops_fetchContainerPublicIp env
          { containerInstances := [cia], cluster := arn } e m hmem hc with ⟨hlast, h2⟩
      rw [h2] at hfc
      cases hfc
    · rcases errStops_handlerAfterIp env (clusterNameOf arn) d hz task.group ip
          e m hmem hc with ⟨hlast, h2⟩
      exact ⟨getLast?_cons_of_getLast? _ (getLast?_append_of_getLast? _ hlast), h2⟩
  · rw [heq] at hmem
    simp at hmem
    subst hmem
    simp [callErr, errOf, hlt] at hc

/-- Witness for C6: when the tag listing rejects with message `boom`, that
single recorded call is last and the handler's outcome is `api boom`. -/
theorem api_error_propagates_witness :
    (handler envTagErr taskF).1.getLast? = some (CallEvent.listTags taskF.taskArn) ∧
    (handler envTagErr taskF).2 = Except.error (JsErr.api "boom") :=
  api_error_propagates envTagErr taskF (CallEvent.listTags taskF.taskArn) "boom"
    (by decide) rfl

/-- Claim C7: the recorded calls of every run are ordered by phase — the tag
lookup (phase 0) precedes every IP-resolution call (phase 1), which precedes
the DNS change call (phase 2) — and a DNS change is only ever recorded in a
run that already recorded the tag lookup and an IP-resolution call. -/
theorem sequential_remote_calls (env : Env) (task : TaskDetail) :
    List.Pairwise (fun a b => phase a ≤ phase b) (handler env task).1 ∧
    ∀ p, CallEvent.changeRRS p ∈ (handler env task).1 →
      CallEvent.listTags task.taskArn ∈ (handler env task).1 ∧
      ∃ e, e ∈ (handler env task).1 ∧ phase e = 1 := by
  rcases handler_run env task with
      ⟨_, heq⟩
    | ⟨arn, m, _, _, heq⟩
    | ⟨arn, resp, _, _, _, heq⟩
    | ⟨arn, resp, d, hz, eniId, e0, _, _, _, _, _, _, heq⟩
    | ⟨arn, resp, d, hz, eniId, ip, _, _, _, _, _, _, heq⟩
    | ⟨arn, resp, d, hz, cia, e0, _, _, _, _, _, _, _, heq⟩
    | ⟨arn, resp, d, hz, cia, ip, _, _, _, _, _, _, _, heq⟩
    | ⟨arn, resp, d, hz, _, _, _, _, _, _, heq⟩
  · rw [heq]
    exact ⟨by simp, by intro p hp; simp at hp⟩
  · rw [heq]
    exact ⟨by simp, by intro p hp; simp at hp⟩
  · rw [heq]
    exact ⟨by simp, by intro p hp; simp at hp⟩
  · rw [heq, fetchEniPublicIp_fst]
    exact ⟨by simp [List.pairwise_cons, phase], by intro p hp; simp at hp⟩
  · rw [heq, fetchEniPublicIp_fst]
    rcases handlerAfterIp_fst env (clusterNameOf arn) d hz task.group ip with
        hres | hres <;> rw [hres]
    · exact ⟨by simp [List.pairwise_cons, phase], by intro p hp; simp at hp⟩
    · refine ⟨by simp [List.pairwise_cons, phase], ?_⟩
      intro p hp
      exact ⟨by simp, CallEvent.descNetworkInterfaces eniId, by simp, rfl⟩
  · rcases fetchContainerPublicIp_fst env
        { containerInstances := [cia], cluster := arn } with hfst | ⟨i, hfst⟩ <;>
      rw [heq, hfst]
    · exact ⟨by simp [List.pairwise_cons, phase], by intro p hp; simp at hp⟩
    · exact ⟨by simp [List.pairwise_cons, phase], by intro p hp; simp at hp⟩
  · rcases fetchContainerPublicIp_fst env
        { containerInstances := [cia], cluster := arn } with hfst | ⟨i, hfst⟩ <;>
      rw [heq, hfst] <;>
      rcases handlerAfterIp_fst env (clusterNameOf arn) d hz task.group ip with
          hres | hres <;> rw [hres]
    · exact ⟨by simp [List.pairwise_cons, phase], by intro p hp; simp at hp⟩
    · refine ⟨by simp [List.pairwise_cons, phase], ?_⟩
      intro p hp
      exact ⟨by simp,
        CallEvent.descContainerInstances { containerInstances := [cia], cluster := arn },
        by simp, rfl⟩
    · exact ⟨by simp [List.pairwise_cons, phase], by intro p hp; simp at hp⟩
    · refine ⟨by simp [List.pairwise_cons, phase], ?_⟩
      intro p hp
      exact ⟨by simp,
        CallEvent.descContainerInstances { containerInstances := [cia], cluster := arn },
        by simp, rfl⟩
  · rw [heq]
    exact ⟨by simp, by intro p hp; simp at hp⟩

/-- Witness for C7: the concrete Fargate run that recorded a DNS change also
recorded the tag lookup and an IP-resolution call before it. -/
theorem sequential_remote_calls_witness :
    CallEvent.listTags taskF.taskArn ∈ (handler envF taskF).1 ∧
    ∃ e, e ∈ (handler envF taskF).1 ∧ phase e = 1 :=
  (sequential_remote_calls envF taskF).2 paramF (by decide)

/-- Claim C8: `getEniId` is the value of the first `networkInterfaceId`
detail of the FIRST attachment of type `eni`; it is `undefined` when there is
no eni attachment or when that first eni attachment has no such detail, and
later eni attachments are never consulted. -/
theorem getEniId_first_eni_first_detail (task : TaskDetail) :
    getEniId task
      = (task.attachments.find? (fun a => a.type == "eni")).bind
          (fun a => (a.details.find? (fun d => d.name == "networkInterfaceId")).bind
            AttachmentDetail.value) := by
  unfold getEniId
  rw [List.head?_map, List.filter_head?, join_map_eq_bind]
  cases task.attachments.find? (fun a => a.type == "eni") with
  | none => rfl
  | some a =>
      show eniIdOfAttachment a = _
      unfold eniIdOfAttachment
      rw [List.head?_map, List.filter_head?, join_map_eq_bind]
      rfl

/-- Claim C9: an absent `clusterArn` throws before any remote call; an absent
`group` means no DNS change is ever recorded, and a run that did resolve a
public IP then throws (after the resolution, before the DNS submission). -/
theorem missing_detail_fields (env : Env) (task : TaskDetail) :
    (task.clusterArn = none → handler env task = ([], Except.error JsErr.typeError)) ∧
    (task.group = none → ∀ p, CallEvent.changeRRS p ∉ (handler env task).1) ∧
    (task.group = none →
      ∀ arn resp d hz, task.clusterArn = some arn →
        env.listTagsForResource task.taskArn = Except.ok resp →
        jsT (tagsToMap (resp.tags.getD []) "domain") = some d →
        jsT (tagsToMap (resp.tags.getD []) "hostedZoneId") = some hz →
        ∀ v, ResolvedIp env task v →
          (handler env task).2 = Except.error JsErr.typeError) := by
  refine ⟨?_, ?_, ?_⟩
  · intro h
    simp [handler, h]
  · intro hg p hp
    rcases handler_run env task with
        ⟨_, heq⟩
      | ⟨arn, m, _, _, heq⟩
      | ⟨arn, resp, _, _, _, heq⟩
      | ⟨arn, resp, d, hz, eniId, e0, _, _, _, _, _, _, heq⟩
      | ⟨arn, resp, d, hz, eniId, ip, _, _, _, _, _, _, heq⟩
      | ⟨arn, resp, d, hz, cia, e0, _, _, _, _, _, _, _, heq⟩
      | ⟨arn, resp, d, hz, cia, ip, _, _, _, _, _, _, _, heq⟩
      | ⟨arn, resp, d, hz, _, _, _, _, _, _, heq⟩
    · rw [heq] at hp
      simp at hp
    · rw [heq] at hp
      simp at hp
    · rw [heq] at hp
      simp at hp
    · rw [heq, fetchEniPublicIp_fst] at hp
      simp at hp
    · rw [heq, hg, fetchEniPublicIp_fst] at hp
      simp [handlerAfterIp] at hp
    · rw [heq] at hp
      rcases fetchContainerPublicIp_fst env
          { containerInstances := [cia], cluster := arn } with hfst | ⟨i, hfst⟩ <;>
        rw [hfst] at hp <;> simp at hp
    · rw [heq, hg] at hp
      rcases fetchContainerPublicIp_fst env
          { containerInstances := [cia], cluster := arn } with hfst | ⟨i, hfst⟩ <;>
        rw [hfst] at hp <;> simp [handlerAfterIp] at hp
    · rw [heq] at hp
      simp at hp
  · intro hg arn resp d hz hca hlt hd hh v hres
    rcases hres with ⟨eniId, he, hr⟩ | ⟨he, cia, arn2, hca2, hcia, hfc⟩
    · simp [handler, hca, fetchTags, hlt, hd, hh, he, hr, handlerAfterIp, hg]
    · simp [handler, hca2, fetchTags, hlt, hd, hh, he, hcia, hfc, handlerAfterIp, hg]

/-- Witness for C9: a task without `clusterArn` throws with an empty trace; a
task without `group` whose run resolves `1.2.3.4` records no DNS change and
throws a TypeError. -/
theorem missing_detail_fields_witness :
    handler envF taskNoCluster = ([], Except.error JsErr.typeError) ∧
    CallEvent.changeRRS paramF ∉ (handler envF taskNoGroup).1 ∧
    (handler envF taskNoGroup).2 = Except.error JsErr.typeError :=
  ⟨(missing_detail_fields envF taskNoCluster).1 rfl,
   (missing_detail_fields envF taskNoGroup).2.1 rfl paramF,
   (missing_detail_fields envF taskNoGroup).2.2 rfl
     "arn:aws:ecs:eu-central-1:123456789012:cluster/cl" respF "d.example.com" "Z1"
     rfl rfl (by decide) (by decide) (some "1.2.3.4")
     (Or.inl ⟨"eni-1", by decide, rfl⟩)⟩

/-- Claim C10: the tag fold keeps, for each key, the value of the LAST tag in
list order with that key; every key occurring in the list has an entry, and
the empty (or absent) tag list folds to the empty map. -/
theorem fetchTags_map_fold (tags : List Tag) (k : String) :
    tagsToMap tags k
        = ((tags.filter (fun t => t.key == k)).getLast?).map Tag.value
      ∧ (∀ t, t ∈ tags → ∃ v, tagsToMap tags t.key = some v)
      ∧ tagsToMap ([] : List Tag) k = none := by
  refine ⟨?_, ?_, rfl⟩
  · rw [List.filter_getLast?]
    exact tagsToMap_eq_find tags k
  · intro t ht
    rw [tagsToMap_eq_find tags t.key]
    have hsome : (tags.reverse.find? (fun u => u.key == t.key)).isSome := by
      rw [List.find?_isSome]
      exact ⟨t, List.mem_reverse.mpr ht, by simp⟩
    rcases Option.isSome_iff_exists.mp hsome with ⟨u, hu⟩
    rw [hu]
    exact ⟨u.value, rfl⟩

/-- Witness for C10: with two tags sharing key `a`, the map holds an entry
for `a` (the later value, as the main theorem's first component shows). -/
theorem fetchTags_map_fold_witness :
    ∃ v, tagsToMap [{ key := "a", value := "1" }, { key := "a", value := "2" }] "a"
      = some v :=
  (fetchTags_map_fold [{ key := "a", value := "1" }, { key := "a", value := "2" }]
      "a").2.1 { key := "a", value := "1" } (by decide)

end UpdateTaskDns
